import Mathlib

set_option maxRecDepth 4000

/-!
Verification of the BudgetX CSV analytics engine.

The development shallowly embeds the two engine copies of the repository:
`src/analytics.py` (the tolerant engine with column-role fallback renaming
and a generic aggregation fallback) and `src/backend/analytics.py` (the
strict engine that rejects uploads missing the required header columns).

Modelling conventions:
* CSV cells are raw strings; an empty field becomes `none` (pandas `NaN`).
  The embedding models the simple unquoted comma-separated subset of
  `pd.read_csv` that the engine's inputs use: traversal line by line,
  blank lines skipped, short rows padded with missing values.
* Numbers are modelled as exact rationals (`ℚ`).  Python's `round(x, 2)`
  is modelled as rounding to an integer number of hundredths with ties
  going to the even neighbour.
* A pandas column has numeric dtype iff the frame has at least one row and
  every cell of the column is either missing or a decimal numeral; numeric
  such inference (and `pd.to_numeric`) tolerates surrounding whitespace.
* `df[mask]` produces a copy: later assignments to a column of `df` are
  not visible through the filtered frame.  The one exception in the source
  is the all-rows-as-expenses fallback (`expense_df = df`), where the two
  names alias and the later category normalization is visible.  The
  embedding reflects this with the `treat_all_as_expense` flag.
* `groupby` sorts group keys ascending and drops missing keys;
  `sort_values(ascending=False)` then orders groups by total.  Python's
  `str.strip` / `str.lower` are modelled character-wise on ASCII.
* The `date_range` field (lines 134-139 of `src/analytics.py`) is not
  modelled: no claim under verification mentions it and it touches no
  other field of the summary.
-/

/-- Whitespace characters removed by Python's `str.strip`. -/
def isPySpace (c : Char) : Bool :=
  c = ' ' || c = '\t' || c = '\n' || c = '\r' || c = '\x0b' || c = '\x0c'

/-- Character-level model of `str.strip`. -/
def trimChars (cs : List Char) : List Char :=
  ((cs.dropWhile isPySpace).reverse.dropWhile isPySpace).reverse

/-- Model of Python `str.strip` on strings. -/
def strTrim (s : String) : String := ⟨trimChars s.data⟩

/-- Model of Python `str.lower` on strings (ASCII case folding, as the engine's inputs use). -/
def strLower (s : String) : String := ⟨s.data.map Char.toLower⟩

/-- Split a character list at every occurrence of `sep`. -/
def splitOnChar (sep : Char) : List Char → List (List Char)
  | [] => [[]]
  | c :: rest =>
    if c = sep then [] :: splitOnChar sep rest
    else
      match splitOnChar sep rest with
      | [] => [[c]]
      | g :: gs => (c :: g) :: gs

/-- Split a string at every occurrence of `sep`. -/
def strSplit (sep : Char) (s : String) : List String :=
  (splitOnChar sep s.data).map (fun cs => ⟨cs⟩)

/-- Code-point comparison of strings, the order Python and pandas use on `str` keys. -/
def strLtChars : List Char → List Char → Bool
  | [], [] => false
  | [], _ :: _ => true
  | _ :: _, [] => false
  | a :: as, b :: bs =>
    if a.toNat < b.toNat then true
    else if b.toNat < a.toNat then false
    else strLtChars as bs

/-- Boolean `≤` on strings by code point. -/
def strLeB (a b : String) : Bool := !(strLtChars b.data a.data)

/-- Value of a nonempty digit run, accumulator style. -/
def digitsVal : List Char → Nat → Option Nat
  | [], acc => some acc
  | c :: rest, acc =>
    if c.isDigit then digitsVal rest (acc * 10 + (c.toNat - 48)) else none

/-- Parse an unsigned decimal numeral (`123` or `123.45`) as a rational. -/
def parseUnsigned (cs : List Char) : Option ℚ :=
  match splitOnChar '.' cs with
  | [ip] =>
    if ip.isEmpty then none else (digitsVal ip 0).map (fun n => (n : ℚ))
  | [ip, fp] =>
    if ip.isEmpty || fp.isEmpty then none
    else
      match digitsVal ip 0, digitsVal fp 0 with
      | some a, some b => some ((a : ℚ) + (b : ℚ) / ((10 : ℚ) ^ fp.length))
      | _, _ => none
  | _ => none

/-- Parse a decimal numeral with optional sign, tolerating surrounding
whitespace the way pandas numeric conversion does. -/
def parseNum (s : String) : Option ℚ :=
  match trimChars s.data with
  | '-' :: rest => (parseUnsigned rest).map (fun q => -q)
  | '+' :: rest => parseUnsigned rest
  | cs => parseUnsigned cs

/-- Round a rational to the nearest integer, ties to the even neighbour
(the behaviour of Python's `round` on representable halves). -/
def roundHalfEven (q : ℚ) : ℤ :=
  let f := ⌊q⌋
  let r := q - (f : ℚ)
  if r < 1 / 2 then f
  else if 1 / 2 < r then f + 1
  else if f % 2 = 0 then f else f + 1

/-- Model of Python's `round(x, 2)`. -/
def round2 (q : ℚ) : ℚ := (roundHalfEven (q * 100) : ℚ) / 100

/-- An in-memory table: normalized column names and rows of optional cells
(`none` is pandas `NaN`). -/
structure DataFrame where
  cols : List String
  rows : List (List (Option String))
deriving DecidableEq

/-- First-occurrence deduplication, used to model distinct-value counting. -/
def dedupFirst : List String → List String
  | [] => []
  | x :: xs => x :: (dedupFirst xs).filter (fun y => y ≠ x)

/-- Insert into a list sorted by the boolean relation `le`. -/
def insertLe {α : Type} (le : α → α → Bool) (x : α) : List α → List α
  | [] => [x]
  | y :: ys => if le x y then x :: y :: ys else y :: insertLe le x ys

/-- Insertion sort by the boolean relation `le`. -/
def sortLe {α : Type} (le : α → α → Bool) : List α → List α
  | [] => []
  | x :: xs => insertLe le x (sortLe le xs)

/-- Python `dict` access on an association list (first matching key). -/
def assocLookup (l : List (String × ℚ)) (k : String) : Option ℚ :=
  match l with
  | [] => none
  | p :: rest => if p.1 = k then some p.2 else assocLookup rest k

/-- Boolean membership of a string in a list. -/
def containsStr (l : List String) (s : String) : Bool :=
  l.any (fun c => decide (c = s))

/-- Index of the first column with the given name. -/
def colIdx (cols : List String) (name : String) : Option Nat :=
  cols.findIdx? (fun c => decide (c = name))

/-- Cell of row `r` in the named column (`none` when absent or missing). -/
def cellAt (df : DataFrame) (name : String) (r : List (Option String)) :
    Option String :=
  match colIdx df.cols name with
  | some i => (r[i]?).getD none
  | none => none

/-- Content lines of the upload: split on newlines, blank lines skipped
(pandas `skip_blank_lines`); a fully empty upload yields no lines. -/
def splitLines (content : String) : List String :=
  (strSplit '\n' content).filter (fun l => l ≠ "")

/-- An empty CSV field parses as a missing value. -/
def toCell (s : String) : Option String :=
  if s = "" then none else some s

/-- Model of `parse_csv` in `src/analytics.py` (lines 25-37): read the CSV, failing
like `pd.read_csv` does on content with no lines at all, then normalize the
column names to trimmed lower case. -/
def parse_csv (content : String) : Except String DataFrame :=
  match splitLines content with
  | [] => Except.error "Failed to parse CSV: No columns to parse from file"
  | header :: rest =>
    let cols := (strSplit ',' header).map (fun c => strLower (strTrim c))
    let n := cols.length
    let rows := rest.map (fun line =>
      let cells := (strSplit ',' line).map toCell
      (cells ++ List.replicate (n - cells.length) none).take n)
    Except.ok { cols := cols, rows := rows }

/-- Transaction-type values classified as income (line 88 of
`src/analytics.py`). -/
def incomeTypes : List String := ["income", "credit", "deposit", "earn"]

/-- Transaction-type values classified as expense (line 89). -/
def expenseTypes : List String := ["expense", "debit", "withdrawal", "payment", "buy"]

/-- The fallback renaming of lines 44-62: each role searched independently,
first candidate present wins, only when the canonical name is absent. -/
def renamePairs (cols : List String) : List (String × String) :=
  (if containsStr cols "type" then []
   else
     match ["transaction_type", "status", "payment_type"].find?
         (fun c => containsStr cols c) with
     | some c => [(c, "type")]
     | none => [])
  ++ (if containsStr cols "amount" then []
      else
        match ["total", "value", "revenue", "price", "cost", "total_price"].find?
            (fun c => containsStr cols c) with
        | some c => [(c, "amount")]
        | none => [])
  ++ (if containsStr cols "category" then []
      else
        match ["product", "item", "department", "expense_category"].find?
            (fun c => containsStr cols c) with
        | some c => [(c, "category")]
        | none => [])

/-- Model of `df.rename(columns=rename_map)` at line 65. -/
def applyRename (df : DataFrame) : DataFrame :=
  { df with cols := df.cols.map (fun c => ((renamePairs df.cols).lookup c).getD c) }

/-- Line 68: the table is financially classified iff both `type` and
`amount` are among the (renamed) columns. -/
def hasFinanceCols (rn : DataFrame) : Bool :=
  containsStr rn.cols "type" && containsStr rn.cols "amount"

/-- pandas numeric-dtype inference for a column: at least one row, and every
cell is either missing or a decimal numeral. -/
def isNumericCol (rn : DataFrame) (c : String) : Bool :=
  !rn.rows.isEmpty &&
    rn.rows.all (fun r =>
      match cellAt rn c r with
      | none => true
      | some s => (parseNum s).isSome)

/-- Lines 80-83: columns of numeric dtype in table order, with `amount`
appended after the `pd.to_numeric(...).fillna(0)` coercion when present but
not already numeric. -/
def numericColsOf (rn : DataFrame) : List String :=
  rn.cols.filter (fun c => isNumericCol rn c)
    ++ (if containsStr rn.cols "amount" && !isNumericCol rn "amount"
        then ["amount"] else [])

/-- Whether lines 81-83 coerced the `amount` column. -/
def amountCoerced (rn : DataFrame) : Bool :=
  containsStr rn.cols "amount" && !isNumericCol rn "amount"

/-- Numeric value of a cell of column `c` after preprocessing: the coerced
`amount` column maps unparseable or missing cells to `0` (`fillna(0)`);
every other numeric column keeps missing cells missing, which pandas sums
then skip. -/
def colVal (rn : DataFrame) (c : String) (r : List (Option String)) : Option ℚ :=
  if c = "amount" && amountCoerced rn then
    some (((cellAt rn "amount" r).bind parseNum).getD 0)
  else (cellAt rn c r).bind parseNum

/-- Sum of the named column over a row set (`Series.sum`, missing skipped). -/
def colSum (rn : DataFrame) (c : String) (rows : List (List (Option String))) : ℚ :=
  (rows.map (fun r => (colVal rn c r).getD 0)).sum

/-- Line 86: normalized transaction type of a row; `astype(str)` renders a
missing value as the string `nan` before trimming and lower-casing. -/
def typeNorm (rn : DataFrame) (r : List (Option String)) : String :=
  strLower (strTrim ((cellAt rn "type" r).getD "nan"))

/-- Line 88: `income_df`. -/
def income_df (rn : DataFrame) : List (List (Option String)) :=
  rn.rows.filter (fun r => containsStr incomeTypes (typeNorm rn r))

/-- Line 89: `expense_df` as first filtered. -/
def expense_filtered (rn : DataFrame) : List (List (Option String)) :=
  rn.rows.filter (fun r => containsStr expenseTypes (typeNorm rn r))

/-- Lines 92-93: both partitions empty with an amount column present means
every row is treated as an expense row (and `expense_df` aliases `df`). -/
def treat_all_as_expense (rn : DataFrame) : Bool :=
  (income_df rn).isEmpty && (expense_filtered rn).isEmpty
    && containsStr rn.cols "amount"

/-- The final `expense_df` used for totals and grouping. -/
def expense_df (rn : DataFrame) : List (List (Option String)) :=
  if treat_all_as_expense rn then rn.rows else expense_filtered rn

/-- Category group key of an expense row at line 110.  When `expense_df`
aliases `df` the line-109 normalization (`astype(str).str.strip()`) is
visible, so every row keys on its trimmed rendering; otherwise `expense_df`
is a copy carved before line 109 and grouping sees the raw cell, with
missing keys dropped by `groupby`. -/
def catKey (rn : DataFrame) (r : List (Option String)) : Option String :=
  if treat_all_as_expense rn then
    some (strTrim ((cellAt rn "category" r).getD "nan"))
  else cellAt rn "category" r

/-- Model of `groupby(key)[value].sum().sort_values(ascending=False).round(2).to_dict()`:
keys sorted ascending by `groupby`, missing keys dropped, per-group sums
rounded, then a stable reordering descending by total. -/
def groupSum (pairs : List (Option String × Option ℚ)) : List (String × ℚ) :=
  let keys := sortLe strLeB (dedupFirst (pairs.filterMap Prod.fst))
  let totals := keys.map (fun k =>
    (k, round2 ((pairs.filter (fun p => p.1 = some k)).map
        (fun p => p.2.getD 0)).sum))
  sortLe (fun a b => decide (b.2 ≤ a.2)) totals

/-- Line 110: expense totals per category. -/
def catTotalsOf (rn : DataFrame) : List (String × ℚ) :=
  groupSum ((expense_df rn).map (fun r => (catKey rn r, colVal rn "amount" r)))

/-- An entry of `overspending_flags`. -/
structure FlagEntry where
  category : String
  percentage : ℚ
  amount : ℚ
deriving DecidableEq

/-- Lines 113-114: categories whose rounded share of total expenses
exceeds 30 percent, in `cat_totals` order. -/
def flagsOf (ct : List (String × ℚ)) (te : ℚ) : List FlagEntry :=
  ct.filterMap (fun p =>
    let pct := round2 (p.2 / te * 100)
    if 30 < pct then some ⟨p.1, pct, p.2⟩ else none)

/-- The structured summary assembled by `compute_analytics`. -/
structure Analysis where
  total_rows : Nat
  columns : List String
  is_financial_data : Bool
  expense_by_category : List (String × ℚ)
  overspending_flags : List FlagEntry
  total_income : Option ℚ
  total_expenses : Option ℚ
  net_surplus : Option ℚ
  savings_rate : Option ℚ
  generic_chart_label : Option String
deriving DecidableEq

/-- Lines 70-77: the generic metadata every summary starts from; `columns`
keeps the pre-rename names captured at line 41. -/
def baseAnalysis (df rn : DataFrame) : Analysis :=
  { total_rows := df.rows.length
    columns := df.cols
    is_financial_data := hasFinanceCols rn
    expense_by_category := []
    overspending_flags := []
    total_income := none
    total_expenses := none
    net_surplus := none
    savings_rate := none
    generic_chart_label := none }

/-- Lines 85-114: the financial aggregation branch. -/
def financialStep (rn : DataFrame) (a : Analysis) : Analysis :=
  if hasFinanceCols rn then
    let ti := round2 (colSum rn "amount" (income_df rn))
    let te := round2 (colSum rn "amount" (expense_df rn))
    let ns := round2 (ti - te)
    let sr := if 0 < ti then round2 (ns / ti * 100) else 0
    let a1 := { a with
      total_income := some ti
      total_expenses := some te
      net_surplus := some ns
      savings_rate := some sr
      is_financial_data := true }
    if containsStr rn.cols "category" then
      let ct := catTotalsOf rn
      { a1 with
        expense_by_category := ct
        overspending_flags := if 0 < te then flagsOf ct te else [] }
    else a1
  else a

/-- Line 124: `nunique` of a column counts distinct present values. -/
def nuniqueCol (rn : DataFrame) (c : String) : Nat :=
  (dedupFirst (rn.rows.filterMap (fun r => cellAt rn c r))).length

/-- Line 124: grouping candidates for the generic fallback: non-target
columns with fewer than 20 distinct values, in table order. -/
def candidatesOf (rn : DataFrame) (target : String) : List String :=
  rn.cols.filter (fun c => c ≠ target && decide (nuniqueCol rn c < 20))

/-- Lines 121-126: the target numeric column and, when one qualifies, the
grouping column of the generic fallback. -/
def genericGroup (rn : DataFrame) : Option (String × String) :=
  let target := if containsStr rn.cols "amount" then "amount"
                else (numericColsOf rn).headD ""
  match candidatesOf rn target with
  | [] => none
  | g :: _ => some (target, g)

/-- Lines 117-131: the generic fallback aggregation, run only when the
financial branch left the summary non-financial and a numeric column
exists. -/
def fallbackStep (rn : DataFrame) (a : Analysis) : Analysis :=
  if a.is_financial_data = false ∧ numericColsOf rn ≠ [] then
    match genericGroup rn with
    | some (target, g) =>
      { a with
        expense_by_category :=
          groupSum (rn.rows.map (fun r => (cellAt rn g r, colVal rn target r)))
        total_expenses := some (round2 (colSum rn target rn.rows))
        is_financial_data := true
        generic_chart_label := some (target ++ " by " ++ g) }
    | none => a
  else a

/-- Model of `compute_analytics` in `src/analytics.py` (lines 39-141, without the
claim-irrelevant `date_range` block). -/
def compute_analytics (df : DataFrame) : Analysis :=
  let rn := applyRename df
  fallbackStep rn (financialStep rn (baseAnalysis df rn))

namespace Backend

/-- The header columns `src/backend/analytics.py` requires (line 37). -/
def requiredCols : List String := ["date", "category", "amount", "type"]

/-- Normalized header of the upload, as the strict parser sees it. -/
def headerCols (content : String) : List String :=
  match splitLines content with
  | [] => []
  | header :: _ => (strSplit ',' header).map (fun c => strLower (strTrim c))

/-- Lines 47-50 of `src/backend/analytics.py`: `str.strip`/`str.lower`
cleaning of the `type` and `category` columns through the `.str` accessor,
which leaves missing values missing.  The `pd.to_numeric(...).fillna(0)`
coercion of `amount` is applied where the values are consumed
(`Backend.amountVal`), which the summing-only uses make equivalent. -/
def cleanRow (cols : List String) (r : List (Option String)) :
    List (Option String) :=
  (cols.zip r).map (fun p =>
    if p.1 = "type" then p.2.map (fun s => strLower (strTrim s))
    else if p.1 = "category" then p.2.map strTrim
    else p.2)

/-- Model of `parse_csv` in `src/backend/analytics.py` (lines 27-52): parse, normalize
the header, reject the upload (HTTP 400) when any required column is
missing, then clean the data columns. -/
def parse_csv (content : String) : Except String DataFrame :=
  match splitLines content with
  | [] => Except.error "Failed to parse CSV: No columns to parse from file"
  | header :: rest =>
    let cols := (strSplit ',' header).map (fun c => strLower (strTrim c))
    let n := cols.length
    let rows := rest.map (fun line =>
      let cells := (strSplit ',' line).map toCell
      (cells ++ List.replicate (n - cells.length) none).take n)
    if requiredCols.all (fun c => containsStr cols c) then
      Except.ok { cols := cols, rows := (rows.map (cleanRow cols)) }
    else
      Except.error "CSV missing required columns"

/-- Line 48 as consumed: the coerced numeric amount of a row. -/
def amountVal (df : DataFrame) (r : List (Option String)) : ℚ :=
  ((cellAt df "amount" r).bind parseNum).getD 0

/-- Smallest string of a column (`Series.min` on object dtype skips
missing values; an all-missing column yields missing). -/
def strMin (l : List String) : Option String :=
  l.foldr (fun s acc =>
    match acc with
    | none => some s
    | some t => some (if strLeB s t then s else t)) none

/-- Largest string of a column. -/
def strMax (l : List String) : Option String :=
  l.foldr (fun s acc =>
    match acc with
    | none => some s
    | some t => some (if strLeB s t then t else s)) none

/-- The summary of the strict engine (lines 98-112). -/
structure BAnalysis where
  total_income : ℚ
  total_expenses : ℚ
  net_surplus : ℚ
  savings_rate : ℚ
  expense_by_category : List (String × ℚ)
  expense_ratios : List (String × ℚ)
  income_by_category : List (String × ℚ)
  overspending_flags : List FlagEntry
  total_transactions : Nat
  date_start : Option String
  date_end : Option String
deriving DecidableEq

/-- Model of `compute_analytics` in `src/backend/analytics.py` (lines 55-112). -/
def compute_analytics (df : DataFrame) : BAnalysis :=
  let inc := df.rows.filter (fun r => cellAt df "type" r = some "income")
  let exp := df.rows.filter (fun r => cellAt df "type" r = some "expense")
  let ti := round2 ((inc.map (amountVal df)).sum)
  let te := round2 ((exp.map (amountVal df)).sum)
  let ns := round2 (ti - te)
  let sr := if 0 < ti then round2 (ns / ti * 100) else 0
  let ebc := groupSum (exp.map (fun r =>
    (cellAt df "category" r, some (amountVal df r))))
  let ratios := if 0 < te then
    ebc.map (fun p => (p.1, round2 (p.2 / te * 100))) else []
  let flags := ratios.filterMap (fun p =>
    if 30 < p.2 then some (⟨p.1, p.2, (assocLookup ebc p.1).getD 0⟩ : FlagEntry)
    else none)
  let ibc := groupSum (inc.map (fun r =>
    (cellAt df "category" r, some (amountVal df r))))
  let dates := df.rows.filterMap (fun r => cellAt df "date" r)
  { total_income := ti
    total_expenses := te
    net_surplus := ns
    savings_rate := sr
    expense_by_category := ebc
    expense_ratios := ratios
    income_by_category := ibc
    overspending_flags := flags
    total_transactions := df.rows.length
    date_start := strMin dates
    date_end := strMax dates }

/-- The upload pipeline of the strict engine: a parse failure aborts the
request before any aggregation runs. -/
def analyze (content : String) : Except String BAnalysis :=
  (parse_csv content).map compute_analytics

end Backend

/-- The two-row example table of the specification, as parsed from
`date,category,amount,type` CSV input. -/
def exampleDf : DataFrame :=
  { cols := ["date", "category", "amount", "type"]
    rows := [[some "2024-01-01", some "Food", some "100", some "expense"],
             [some "2024-01-02", some "Salary", some "1000", some "income"]] }

/-- A sales-ledger table with no transaction-type column: the generic
fallback still marks it financial. -/
def salesDf : DataFrame :=
  { cols := ["item", "amount"]
    rows := [[some "A", some "5"], [some "B", some "7"]] }

/-- A financial table with an income row, an expense row and a row whose
type matches neither partition. -/
def mixedTypesDf : DataFrame :=
  { cols := ["type", "amount"]
    rows := [[some "income", some "10"],
             [some "expense", some "4"],
             [some "refund", some "3"]] }

/-- A financial table where one expense row has no category value. -/
def missingCatDf : DataFrame :=
  { cols := ["type", "amount", "category"]
    rows := [[some "expense", some "100", some "Food"],
             [some "expense", some "50", none]] }

/-- A financial table whose category value carries surrounding spaces. -/
def paddedCatDf : DataFrame :=
  { cols := ["type", "amount", "category"]
    rows := [[some "expense", some "50", some " Food "]] }

/-- A two-category expense table, one category above the 30 percent
threshold and one below. -/
def twoCatDf : DataFrame :=
  { cols := ["type", "amount", "category"]
    rows := [[some "expense", some "80", some "A"],
             [some "expense", some "20", some "B"]] }

/-- A one-flag expense table. -/
def rentDf : DataFrame :=
  { cols := ["type", "amount", "category"]
    rows := [[some "expense", some "100", some "Rent"]] }

/-- The `widget,qty_sold,region` table of the specification example:
twenty distinct widgets (so `widget` fails the low-cardinality test),
eight distinct regions. -/
def widgetDf : DataFrame :=
  { cols := ["widget", "qty_sold", "region"]
    rows := [[some "w01", some "1", some "r1"],
             [some "w02", some "2", some "r2"],
             [some "w03", some "3", some "r3"],
             [some "w04", some "4", some "r4"],
             [some "w05", some "5", some "r5"],
             [some "w06", some "6", some "r6"],
             [some "w07", some "7", some "r7"],
             [some "w08", some "8", some "r8"],
             [some "w09", some "9", some "r1"],
             [some "w10", some "10", some "r2"],
             [some "w11", some "11", some "r3"],
             [some "w12", some "12", some "r4"],
             [some "w13", some "13", some "r5"],
             [some "w14", some "14", some "r6"],
             [some "w15", some "15", some "r7"],
             [some "w16", some "16", some "r8"],
             [some "w17", some "17", some "r1"],
             [some "w18", some "18", some "r2"],
             [some "w19", some "19", some "r3"],
             [some "w20", some "20", some "r4"]] }

/-- Renaming touches only the column names. -/
theorem applyRename_rows (df : DataFrame) : (applyRename df).rows = df.rows := rfl

/-- The predicate `containsStr` is boolean list membership. -/
theorem containsStr_iff (l : List String) (s : String) :
    containsStr l s = true ↔ s ∈ l := by
  unfold containsStr
  rw [List.any_eq_true]
  constructor
  · rintro ⟨x, hx, hxs⟩
    rw [decide_eq_true_iff] at hxs
    rw [← hxs]
    exact hx
  · intro hs
    exact ⟨s, hs, by simp⟩

/-- A financially classified table keeps its `amount` column. -/
theorem hasFinanceCols_amount (rn : DataFrame) (h : hasFinanceCols rn = true) :
    containsStr rn.cols "amount" = true := by
  unfold hasFinanceCols at h
  exact (Bool.and_eq_true _ _).mp h |>.2

/-- The generic fallback never fires on a summary already marked
financial. -/
theorem fallbackStep_of_financial (rn : DataFrame) (a : Analysis)
    (h : a.is_financial_data = true) : fallbackStep rn a = a := by
  unfold fallbackStep
  rw [h]
  simp

/-- The generic fallback never modifies the overspending flags. -/
theorem fallbackStep_flags (rn : DataFrame) (a : Analysis) :
    (fallbackStep rn a).overspending_flags = a.overspending_flags := by
  unfold fallbackStep
  split
  · split <;> rfl
  · rfl

/-- The financial branch marks the summary financial. -/
theorem financialStep_is_financial (rn : DataFrame) (a : Analysis)
    (h : hasFinanceCols rn = true) :
    (financialStep rn a).is_financial_data = true := by
  unfold financialStep
  rw [h]
  simp only [if_true]
  split <;> rfl

/-- On a financially classified table the whole engine is just the
financial branch. -/
theorem compute_financial (df : DataFrame)
    (h : hasFinanceCols (applyRename df) = true) :
    compute_analytics df
      = financialStep (applyRename df) (baseAnalysis df (applyRename df)) := by
  unfold compute_analytics
  exact fallbackStep_of_financial _ _ (financialStep_is_financial _ _ h)

/-- Explicit shape of the summary on a financially classified table with a
resolved category column. -/
theorem compute_financial_cat (df : DataFrame)
    (hfin : hasFinanceCols (applyRename df) = true)
    (hcat : containsStr (applyRename df).cols "category" = true) :
    compute_analytics df =
      { total_rows := df.rows.length
        columns := df.cols
        is_financial_data := true
        expense_by_category := catTotalsOf (applyRename df)
        overspending_flags :=
          if 0 < round2 (colSum (applyRename df) "amount" (expense_df (applyRename df)))
          then flagsOf (catTotalsOf (applyRename df))
            (round2 (colSum (applyRename df) "amount" (expense_df (applyRename df))))
          else []
        total_income :=
          some (round2 (colSum (applyRename df) "amount" (income_df (applyRename df))))
        total_expenses :=
          some (round2 (colSum (applyRename df) "amount" (expense_df (applyRename df))))
        net_surplus :=
          some (round2 (round2 (colSum (applyRename df) "amount" (income_df (applyRename df)))
            - round2 (colSum (applyRename df) "amount" (expense_df (applyRename df)))))
        savings_rate :=
          some (if 0 < round2 (colSum (applyRename df) "amount" (income_df (applyRename df)))
          then round2 (round2 (round2 (colSum (applyRename df) "amount" (income_df (applyRename df)))
            - round2 (colSum (applyRename df) "amount" (expense_df (applyRename df))))
            / round2 (colSum (applyRename df) "amount" (income_df (applyRename df))) * 100)
          else 0)
        generic_chart_label := none } := by
  rw [compute_financial df hfin]
  unfold financialStep baseAnalysis
  rw [hfin, hcat]
  simp only [if_true]

/-- Membership in the overspending flags of a category table. -/
theorem mem_flagsOf (ct : List (String × ℚ)) (te : ℚ) (f : FlagEntry) :
    f ∈ flagsOf ct te ↔
      ∃ p ∈ ct, 30 < round2 (p.2 / te * 100)
        ∧ f = ⟨p.1, round2 (p.2 / te * 100), p.2⟩ := by
  unfold flagsOf
  rw [List.mem_filterMap]
  constructor
  · rintro ⟨p, hp, hfp⟩
    dsimp only at hfp
    by_cases h : 30 < round2 (p.2 / te * 100)
    · rw [if_pos h] at hfp
      exact ⟨p, hp, h, (Option.some_inj.mp hfp).symm⟩
    · rw [if_neg h] at hfp
      exact absurd hfp (by simp)
  · rintro ⟨p, hp, h30, hfp⟩
    exact ⟨p, hp, by dsimp only; rw [if_pos h30, hfp]⟩

/-- Inserting permutes to consing. -/
theorem insertLe_perm {α : Type} (le : α → α → Bool) (x : α) (l : List α) :
    (insertLe le x l).Perm (x :: l) := by
  induction l with
  | nil => exact List.Perm.refl _
  | cons y ys ih =>
    unfold insertLe
    split
    · exact List.Perm.refl _
    · exact ((ih.cons y).trans (List.Perm.swap x y ys))

/-- Insertion sort permutes its input. -/
theorem sortLe_perm {α : Type} (le : α → α → Bool) (l : List α) :
    (sortLe le l).Perm l := by
  induction l with
  | nil => exact List.Perm.refl _
  | cons x xs ih =>
    unfold sortLe
    exact (insertLe_perm le x (sortLe le xs)).trans (ih.cons x)

/-- First-occurrence deduplication yields distinct elements. -/
theorem dedupFirst_nodup (l : List String) : (dedupFirst l).Nodup := by
  induction l with
  | nil => exact List.nodup_nil
  | cons x xs ih =>
    unfold dedupFirst
    refine List.Nodup.cons ?_ (ih.filter _)
    intro hx
    have := List.of_mem_filter hx
    simp at this

/-- The grouped totals have pairwise distinct keys. -/
theorem groupSum_keys_nodup (pairs : List (Option String × Option ℚ)) :
    ((groupSum pairs).map Prod.fst).Nodup := by
  unfold groupSum
  have hkeys : (sortLe strLeB (dedupFirst (pairs.filterMap Prod.fst))).Nodup :=
    (sortLe_perm _ _).nodup_iff.mpr (dedupFirst_nodup _)
  have hmap :
      ((sortLe strLeB (dedupFirst (pairs.filterMap Prod.fst))).map
        (fun k => (k, round2 ((pairs.filter (fun p => p.1 = some k)).map
          (fun p => p.2.getD 0)).sum))).map Prod.fst
      = sortLe strLeB (dedupFirst (pairs.filterMap Prod.fst)) := by
    rw [List.map_map]
    exact List.map_id'' (fun x => rfl) _
  have hperm := (sortLe_perm (fun a b => decide (b.2 ≤ a.2))
    ((sortLe strLeB (dedupFirst (pairs.filterMap Prod.fst))).map
      (fun k => (k, round2 ((pairs.filter (fun p => p.1 = some k)).map
        (fun p => p.2.getD 0)).sum)))).map Prod.fst
  rw [hperm.nodup_iff, hmap]
  exact hkeys

/-- With distinct keys, `dict` lookup of a member's key returns its value. -/
theorem assocLookup_of_mem_nodup (l : List (String × ℚ)) (p : String × ℚ)
    (hn : (l.map Prod.fst).Nodup) (hp : p ∈ l) :
    assocLookup l p.1 = some p.2 := by
  induction l with
  | nil => exact absurd hp (List.not_mem_nil p)
  | cons q rest ih =>
    rw [List.map_cons, List.nodup_cons] at hn
    unfold assocLookup
    rcases List.mem_cons.mp hp with h | h
    · rw [h]
      simp
    · have hne : ¬q.1 = p.1 := by
        intro he
        exact hn.1 (he ▸ List.mem_map_of_mem Prod.fst h)
      rw [if_neg hne]
      exact ih hn.2 h

/-- C1: for the CSV with header `date,category,amount,type` and the two data
rows `2024-01-01,Food,100,expense` and `2024-01-02,Salary,1000,income`,
`compute_analytics` reports `total_income = 1000`, `total_expenses = 100`,
`net_surplus = 900`, `savings_rate = 90`, `expense_by_category` mapping
`Food` to `100`, and exactly one overspending flag
`(category Food, percentage 100, amount 100)`. -/
theorem c1_example_upload :
    parse_csv "date,category,amount,type\n2024-01-01,Food,100,expense\n2024-01-02,Salary,1000,income"
      = Except.ok exampleDf
    ∧ compute_analytics exampleDf =
      { total_rows := 2
        columns := ["date", "category", "amount", "type"]
        is_financial_data := true
        expense_by_category := [("Food", 100)]
        overspending_flags := [⟨"Food", 100, 100⟩]
        total_income := some 1000
        total_expenses := some 100
        net_surplus := some 900
        savings_rate := some 90
        generic_chart_label := none } :=
  ⟨rfl, by with_unfolding_all decide⟩

/-- C2, counterexample: the table `item,amount` with rows `A,5` and `B,7`
has no transaction-type column even after renaming, yet the returned
summary has `is_financial_data = true` (the generic fallback forces it). -/
theorem c2_counterexample :
    parse_csv "item,amount\nA,5\nB,7" = Except.ok salesDf
    ∧ hasFinanceCols (applyRename salesDf) = false
    ∧ (compute_analytics salesDf).is_financial_data = true :=
  ⟨rfl, by with_unfolding_all decide, by with_unfolding_all decide⟩

/-- C4: the code violates the category-sum invariant.  On the CSV
`type,amount,category` with rows `expense,100,Food` and `expense,50,`
(missing category), the groupby drops the missing-category row, so
`expense_by_category` sums to `100` while `total_expenses = 150`, a gap of
`50`, far beyond `0.01` times the one category. -/
theorem c4_category_sum_gap :
    parse_csv "type,amount,category\nexpense,100,Food\nexpense,50,"
      = Except.ok missingCatDf
    ∧ (compute_analytics missingCatDf).expense_by_category = [("Food", 100)]
    ∧ ((compute_analytics missingCatDf).expense_by_category.map Prod.snd).sum = 100
    ∧ (compute_analytics missingCatDf).total_expenses = some 150
    ∧ ¬((150 : ℚ) - 100 ≤ (1 / 100) * 1) :=
  ⟨rfl, by with_unfolding_all decide, by with_unfolding_all decide, by with_unfolding_all decide, by with_unfolding_all decide⟩

/-- C8: the code does not trim category keys.  On the CSV
`type,amount,category` with row `expense,50, Food ` the emitted key keeps
its surrounding spaces, because the line-109 normalization runs on `df`
after `expense_df` was already carved out as a copy; the specified trimmed
key would be `Food`. -/
theorem c8_untrimmed_category_key :
    parse_csv "type,amount,category\nexpense,50, Food " = Except.ok paddedCatDf
    ∧ (compute_analytics paddedCatDf).expense_by_category = [(" Food ", 50)]
    ∧ strTrim " Food " = "Food"
    ∧ (compute_analytics paddedCatDf).expense_by_category ≠ [("Food", 50)] :=
  ⟨rfl, by with_unfolding_all decide, by with_unfolding_all decide, by with_unfolding_all decide⟩

/-- C6, counterexample: fully empty byte content does not parse; like
`pd.read_csv` on empty input, `parse_csv` fails with a parse error. -/
theorem c6_counterexample_empty_input :
    parse_csv "" = Except.error "Failed to parse CSV: No columns to parse from file" :=
  rfl

/-- C3: on a financially classified table the income total sums exactly the
rows whose normalized type is in the income set, the expense total sums
exactly the rows whose normalized type is in the expense set, rows in
neither set count in neither sum; and when both partitions are empty (the
amount column being guaranteed by the classification), every row is summed
as an expense row. -/
theorem c3_partition_totals (df : DataFrame)
    (hfin : hasFinanceCols (applyRename df) = true) :
    (compute_analytics df).total_income
      = some (round2 (colSum (applyRename df) "amount"
          ((applyRename df).rows.filter
            (fun r => containsStr incomeTypes (typeNorm (applyRename df) r)))))
    ∧ (compute_analytics df).total_expenses
      = some (round2 (colSum (applyRename df) "amount"
          (if ((applyRename df).rows.filter
                (fun r => containsStr incomeTypes (typeNorm (applyRename df) r))).isEmpty
              && ((applyRename df).rows.filter
                (fun r => containsStr expenseTypes (typeNorm (applyRename df) r))).isEmpty
           then (applyRename df).rows
           else (applyRename df).rows.filter
                (fun r => containsStr expenseTypes (typeNorm (applyRename df) r))))) := by
  have hamt := hasFinanceCols_amount _ hfin
  have hexp : expense_df (applyRename df)
      = (if ((applyRename df).rows.filter
              (fun r => containsStr incomeTypes (typeNorm (applyRename df) r))).isEmpty
            && ((applyRename df).rows.filter
              (fun r => containsStr expenseTypes (typeNorm (applyRename df) r))).isEmpty
         then (applyRename df).rows
         else (applyRename df).rows.filter
              (fun r => containsStr expenseTypes (typeNorm (applyRename df) r))) := by
    unfold expense_df treat_all_as_expense income_df expense_filtered
    rw [hamt]
    simp only [Bool.and_true]
  rw [compute_financial df hfin]
  unfold financialStep
  rw [hfin]
  simp only [if_true]
  constructor
  · split <;> rfl
  · rw [← hexp]
    split <;> rfl

/-- C3 witness: a table with an income row, an expense row and a `refund`
row that counts in neither partition. -/
theorem c3_partition_totals_witness :
    hasFinanceCols (applyRename mixedTypesDf) = true
    ∧ ((compute_analytics mixedTypesDf).total_income
        = some (round2 (colSum (applyRename mixedTypesDf) "amount"
            ((applyRename mixedTypesDf).rows.filter
              (fun r => containsStr incomeTypes (typeNorm (applyRename mixedTypesDf) r)))))
      ∧ (compute_analytics mixedTypesDf).total_expenses
        = some (round2 (colSum (applyRename mixedTypesDf) "amount"
            (if ((applyRename mixedTypesDf).rows.filter
                  (fun r => containsStr incomeTypes (typeNorm (applyRename mixedTypesDf) r))).isEmpty
                && ((applyRename mixedTypesDf).rows.filter
                  (fun r => containsStr expenseTypes (typeNorm (applyRename mixedTypesDf) r))).isEmpty
             then (applyRename mixedTypesDf).rows
             else (applyRename mixedTypesDf).rows.filter
                  (fun r => containsStr expenseTypes (typeNorm (applyRename mixedTypesDf) r))))))
    ∧ (compute_analytics mixedTypesDf).total_income = some 10
    ∧ (compute_analytics mixedTypesDf).total_expenses = some 4 :=
  ⟨by with_unfolding_all decide,
   c3_partition_totals mixedTypesDf (by with_unfolding_all decide),
   by with_unfolding_all decide, by with_unfolding_all decide⟩

/-- C5: on a table that is not financially classified, resolves no `amount`
column, and has a first numeric column `t`, when the first non-target
low-cardinality column is `g` the generic fallback groups by `g`, sums `t`,
reports `total_expenses` as the rounded sum of `t` over all rows, forces
`is_financial_data` to true, and labels the chart `t by g`. -/
theorem c5_generic_fallback (df : DataFrame) (t g : String)
    (nrest grest : List String)
    (hamt : containsStr (applyRename df).cols "amount" = false)
    (hnum : numericColsOf (applyRename df) = t :: nrest)
    (hcand : candidatesOf (applyRename df) t = g :: grest) :
    (compute_analytics df).is_financial_data = true
    ∧ (compute_analytics df).total_expenses
      = some (round2 (colSum (applyRename df) t (applyRename df).rows))
    ∧ (compute_analytics df).generic_chart_label = some (t ++ " by " ++ g)
    ∧ (compute_analytics df).expense_by_category
      = groupSum ((applyRename df).rows.map
          (fun r => (cellAt (applyRename df) g r, colVal (applyRename df) t r))) := by
  have hfin : hasFinanceCols (applyRename df) = false := by
    unfold hasFinanceCols
    rw [hamt, Bool.and_false]
  have hgg : genericGroup (applyRename df) = some (t, g) := by
    unfold genericGroup
    rw [hamt]
    simp only [Bool.false_eq_true, if_false, hnum, List.headD_cons, hcand]
  have hcompute : compute_analytics df
      = fallbackStep (applyRename df) (baseAnalysis df (applyRename df)) := by
    simp only [compute_analytics]
    rw [show financialStep (applyRename df) (baseAnalysis df (applyRename df))
        = baseAnalysis df (applyRename df) from by
      unfold financialStep
      rw [hfin]
      simp]
  have hcond : (baseAnalysis df (applyRename df)).is_financial_data = false
      ∧ numericColsOf (applyRename df) ≠ [] := by
    refine ⟨hfin, ?_⟩
    rw [hnum]
    exact List.cons_ne_nil t nrest
  rw [hcompute]
  unfold fallbackStep
  rw [if_pos hcond, hgg]
  exact ⟨rfl, rfl, rfl, rfl⟩

/-- C5 witness: the `widget,qty_sold,region` table with twenty distinct
widgets and eight regions groups `qty_sold` by `region` with label
`qty_sold by region`. -/
theorem c5_generic_fallback_witness :
    containsStr (applyRename widgetDf).cols "amount" = false
    ∧ numericColsOf (applyRename widgetDf) = ["qty_sold"]
    ∧ candidatesOf (applyRename widgetDf) "qty_sold" = ["region"]
    ∧ ((compute_analytics widgetDf).is_financial_data = true
      ∧ (compute_analytics widgetDf).total_expenses
        = some (round2 (colSum (applyRename widgetDf) "qty_sold" (applyRename widgetDf).rows))
      ∧ (compute_analytics widgetDf).generic_chart_label
        = some ("qty_sold" ++ " by " ++ "region")
      ∧ (compute_analytics widgetDf).expense_by_category
        = groupSum ((applyRename widgetDf).rows.map
            (fun r => (cellAt (applyRename widgetDf) "region" r,
              colVal (applyRename widgetDf) "qty_sold" r))))
    ∧ (compute_analytics widgetDf).generic_chart_label = some "qty_sold by region"
    ∧ (compute_analytics widgetDf).total_expenses = some 210 :=
  ⟨by with_unfolding_all decide, by with_unfolding_all decide,
   by with_unfolding_all decide,
   c5_generic_fallback widgetDf "qty_sold" "region" [] []
     (by with_unfolding_all decide) (by with_unfolding_all decide)
     (by with_unfolding_all decide),
   by with_unfolding_all decide, by with_unfolding_all decide⟩

/-- A non-financial table passes the financial branch unchanged. -/
theorem financialStep_of_not (rn : DataFrame) (a : Analysis)
    (h : hasFinanceCols rn = false) : financialStep rn a = a := by
  unfold financialStep
  rw [h]
  simp

/-- On a non-financial table the engine is the fallback step on the base
summary. -/
theorem compute_nonfinancial (df : DataFrame)
    (h : hasFinanceCols (applyRename df) = false) :
    compute_analytics df
      = fallbackStep (applyRename df) (baseAnalysis df (applyRename df)) := by
  simp only [compute_analytics]
  rw [financialStep_of_not _ _ h]

/-- The base summary starts from the financial-column classification. -/
theorem baseAnalysis_is_financial (df rn : DataFrame) :
    (baseAnalysis df rn).is_financial_data = hasFinanceCols rn := rfl

/-- Sum of a column over no rows. -/
theorem colSum_nil (rn : DataFrame) (c : String) : colSum rn c [] = 0 := rfl

/-- Rounding zero. -/
theorem round2_zero : round2 0 = 0 := by with_unfolding_all decide

/-- C2, amended: `is_financial_data` in the returned summary is true iff
the renamed columns contain both `type` and `amount`, or the generic
fallback produced a grouped aggregation (a numeric column exists and a
low-cardinality grouping column was found). -/
theorem c2_financial_flag_classification (df : DataFrame) :
    (compute_analytics df).is_financial_data
      = (hasFinanceCols (applyRename df)
        || (!(numericColsOf (applyRename df)).isEmpty
            && (genericGroup (applyRename df)).isSome)) := by
  by_cases hf : hasFinanceCols (applyRename df) = true
  · rw [compute_financial df hf, financialStep_is_financial _ _ hf, hf]
    rfl
  · have hf' : hasFinanceCols (applyRename df) = false := by
      cases h : hasFinanceCols (applyRename df)
      · rfl
      · exact absurd h hf
    rw [compute_nonfinancial df hf', hf']
    simp only [Bool.false_or]
    unfold fallbackStep
    by_cases hnc : numericColsOf (applyRename df) = []
    · rw [if_neg (fun hcond => hcond.2 hnc), baseAnalysis_is_financial, hf', hnc]
      rfl
    · rw [if_pos ⟨baseAnalysis_is_financial df _ ▸ hf', hnc⟩]
      have hne : (numericColsOf (applyRename df)).isEmpty = false := by
        cases hh : numericColsOf (applyRename df)
        · exact absurd hh hnc
        · rfl
      cases hgg : genericGroup (applyRename df) with
      | none =>
        rw [hne]
        exact hf'
      | some p =>
        cases p with
        | mk t g =>
          rw [hne]
          rfl

/-- All zero or absent: the summary built from a table with no data rows. -/
theorem analytics_empty_rows (df : DataFrame) (hr : df.rows = []) :
    (compute_analytics df).total_rows = 0
    ∧ (compute_analytics df).expense_by_category = []
    ∧ (compute_analytics df).overspending_flags = []
    ∧ ((compute_analytics df).total_income = none
        ∨ (compute_analytics df).total_income = some 0)
    ∧ ((compute_analytics df).total_expenses = none
        ∨ (compute_analytics df).total_expenses = some 0) := by
  have hrn : (applyRename df).rows = [] := hr
  have hinc : income_df (applyRename df) = [] := by
    unfold income_df
    rw [hrn]
    rfl
  have hexpf : expense_filtered (applyRename df) = [] := by
    unfold expense_filtered
    rw [hrn]
    rfl
  have hexp : expense_df (applyRename df) = [] := by
    unfold expense_df
    split
    · exact hrn
    · exact hexpf
  have hti : round2 (colSum (applyRename df) "amount" (income_df (applyRename df))) = 0 := by
    rw [hinc, colSum_nil]
    exact round2_zero
  have hte : round2 (colSum (applyRename df) "amount" (expense_df (applyRename df))) = 0 := by
    rw [hexp, colSum_nil]
    exact round2_zero
  have hct : catTotalsOf (applyRename df) = [] := by
    unfold catTotalsOf
    rw [hexp]
    rfl
  by_cases hf : hasFinanceCols (applyRename df) = true
  · rw [compute_financial df hf]
    unfold financialStep
    rw [hf]
    simp only [if_true]
    split
    · refine ⟨?_, ?_, ?_, ?_, ?_⟩
      · show df.rows.length = 0
        rw [hr]
        rfl
      · show catTotalsOf (applyRename df) = []
        exact hct
      · show (if 0 < round2 (colSum (applyRename df) "amount" (expense_df (applyRename df)))
            then flagsOf (catTotalsOf (applyRename df))
              (round2 (colSum (applyRename df) "amount" (expense_df (applyRename df))))
            else []) = []
        rw [hte]
        simp
      · right
        show some (round2 (colSum (applyRename df) "amount" (income_df (applyRename df)))) = some 0
        rw [hti]
      · right
        show some (round2 (colSum (applyRename df) "amount" (expense_df (applyRename df)))) = some 0
        rw [hte]
    · refine ⟨?_, rfl, rfl, ?_, ?_⟩
      · show df.rows.length = 0
        rw [hr]
        rfl
      · right
        show some (round2 (colSum (applyRename df) "amount" (income_df (applyRename df)))) = some 0
        rw [hti]
      · right
        show some (round2 (colSum (applyRename df) "amount" (expense_df (applyRename df)))) = some 0
        rw [hte]
  · have hf' : hasFinanceCols (applyRename df) = false := by
      cases h : hasFinanceCols (applyRename df)
      · rfl
      · exact absurd h hf
    rw [compute_nonfinancial df hf']
    unfold fallbackStep
    split
    · cases hgg : genericGroup (applyRename df) with
      | none =>
        refine ⟨?_, rfl, rfl, Or.inl rfl, Or.inl rfl⟩
        show df.rows.length = 0
        rw [hr]
        rfl
      | some p =>
        cases p with
        | mk t g =>
          refine ⟨?_, ?_, rfl, Or.inl rfl, ?_⟩
          · show df.rows.length = 0
            rw [hr]
            rfl
          · show groupSum ((applyRename df).rows.map
                (fun r => (cellAt (applyRename df) g r, colVal (applyRename df) t r))) = []
            rw [hrn]
            rfl
          · right
            show some (round2 (colSum (applyRename df) t (applyRename df).rows)) = some 0
            rw [hrn, colSum_nil, round2_zero]
    · refine ⟨?_, rfl, rfl, Or.inl rfl, Or.inl rfl⟩
      show df.rows.length = 0
      rw [hr]
      rfl

/-- C6, amended: header-only input (exactly one content line) parses
successfully into a table with no data rows, and the summary degrades
gracefully: `total_rows = 0`, empty category mapping and flags, and any
computed totals equal to zero (fully empty input, by contrast, is a parse
error). -/
theorem c6_header_only_degrades (content hd : String)
    (h : splitLines content = [hd]) :
    ∃ df, parse_csv content = Except.ok df ∧ df.rows = []
      ∧ (compute_analytics df).total_rows = 0
      ∧ (compute_analytics df).expense_by_category = []
      ∧ (compute_analytics df).overspending_flags = []
      ∧ ((compute_analytics df).total_income = none
          ∨ (compute_analytics df).total_income = some 0)
      ∧ ((compute_analytics df).total_expenses = none
          ∨ (compute_analytics df).total_expenses = some 0) := by
  have hp : parse_csv content
      = Except.ok { cols := (strSplit ',' hd).map (fun c => strLower (strTrim c))
                    rows := [] } := by
    unfold parse_csv
    rw [h]
    rfl
  exact ⟨_, hp, rfl, analytics_empty_rows _ rfl⟩

/-- C6 witness: the financial header alone parses into a zero-row table
with an all-zero summary. -/
theorem c6_header_only_degrades_witness :
    splitLines "date,category,amount,type\n" = ["date,category,amount,type"]
    ∧ ∃ df, parse_csv "date,category,amount,type\n" = Except.ok df ∧ df.rows = []
      ∧ (compute_analytics df).total_rows = 0
      ∧ (compute_analytics df).expense_by_category = []
      ∧ (compute_analytics df).overspending_flags = []
      ∧ ((compute_analytics df).total_income = none
          ∨ (compute_analytics df).total_income = some 0)
      ∧ ((compute_analytics df).total_expenses = none
          ∨ (compute_analytics df).total_expenses = some 0) :=
  ⟨by with_unfolding_all decide,
   c6_header_only_degrades "date,category,amount,type\n" "date,category,amount,type"
     (by with_unfolding_all decide)⟩

/-- C7: on a financially classified table with a resolved category column
and positive total expenses, every emitted overspending flag has a
percentage strictly above 30, and every category of the expense mapping
that is not flagged has a rounded share of total expenses of at most 30
percent. -/
theorem c7_overspending_threshold (df : DataFrame) (T : ℚ)
    (hfin : hasFinanceCols (applyRename df) = true)
    (hcat : containsStr (applyRename df).cols "category" = true)
    (hT : (compute_analytics df).total_expenses = some T)
    (hTpos : 0 < T) :
    (∀ f ∈ (compute_analytics df).overspending_flags, 30 < f.percentage)
    ∧ ∀ p ∈ (compute_analytics df).expense_by_category,
        (∀ f ∈ (compute_analytics df).overspending_flags, f.category ≠ p.1) →
        round2 (p.2 / T * 100) ≤ 30 := by
  have hebc : (compute_analytics df).expense_by_category
      = catTotalsOf (applyRename df) := by
    rw [compute_financial_cat df hfin hcat]
  have hto : (compute_analytics df).total_expenses
      = some (round2 (colSum (applyRename df) "amount" (expense_df (applyRename df)))) := by
    rw [compute_financial_cat df hfin hcat]
  have hteT : round2 (colSum (applyRename df) "amount" (expense_df (applyRename df))) = T := by
    have h2 := hT
    rw [hto] at h2
    exact Option.some.inj h2
  have hflags : (compute_analytics df).overspending_flags
      = flagsOf (catTotalsOf (applyRename df)) T := by
    rw [compute_financial_cat df hfin hcat]
    show (if 0 < round2 (colSum (applyRename df) "amount" (expense_df (applyRename df)))
        then flagsOf (catTotalsOf (applyRename df))
          (round2 (colSum (applyRename df) "amount" (expense_df (applyRename df))))
        else []) = _
    rw [hteT, if_pos hTpos]
  constructor
  · intro f hf
    rw [hflags] at hf
    rcases (mem_flagsOf _ _ _).mp hf with ⟨p, hp, h30, hfp⟩
    rw [hfp]
    exact h30
  · intro p hp hnot
    by_contra hgt
    push_neg at hgt
    have hmem : (⟨p.1, round2 (p.2 / T * 100), p.2⟩ : FlagEntry)
        ∈ (compute_analytics df).overspending_flags := by
      rw [hflags]
      refine (mem_flagsOf _ _ _).mpr ⟨p, ?_, hgt, rfl⟩
      rw [hebc] at hp
      exact hp
    exact hnot _ hmem rfl

/-- C7 witness: two expense categories, one at 80 percent (flagged) and one
at 20 percent (not flagged). -/
theorem c7_overspending_threshold_witness :
    hasFinanceCols (applyRename twoCatDf) = true
    ∧ containsStr (applyRename twoCatDf).cols "category" = true
    ∧ (compute_analytics twoCatDf).total_expenses = some 100
    ∧ (0 : ℚ) < 100
    ∧ ((∀ f ∈ (compute_analytics twoCatDf).overspending_flags, 30 < f.percentage)
      ∧ ∀ p ∈ (compute_analytics twoCatDf).expense_by_category,
          (∀ f ∈ (compute_analytics twoCatDf).overspending_flags, f.category ≠ p.1) →
          round2 (p.2 / 100 * 100) ≤ 30) :=
  ⟨by with_unfolding_all decide, by with_unfolding_all decide,
   by with_unfolding_all decide, by with_unfolding_all decide,
   c7_overspending_threshold twoCatDf 100 (by with_unfolding_all decide)
     (by with_unfolding_all decide) (by with_unfolding_all decide)
     (by with_unfolding_all decide)⟩

/-- C10: every emitted overspending flag is internally consistent with the
category mapping: its category is a key of `expense_by_category`, its
amount is the value stored under that key, and its percentage is that
amount divided by the (positive) total expenses, times 100, rounded to two
decimals. -/
theorem c10_flag_consistency (df : DataFrame) (f : FlagEntry)
    (hf : f ∈ (compute_analytics df).overspending_flags) :
    ∃ T, (compute_analytics df).total_expenses = some T ∧ 0 < T
      ∧ (f.category, f.amount) ∈ (compute_analytics df).expense_by_category
      ∧ assocLookup ((compute_analytics df).expense_by_category) f.category
          = some f.amount
      ∧ f.percentage = round2 (f.amount / T * 100) := by
  by_cases hfin : hasFinanceCols (applyRename df) = true
  · by_cases hcat : containsStr (applyRename df).cols "category" = true
    · have heq := compute_financial_cat df hfin hcat
      have hflags : (compute_analytics df).overspending_flags
          = (if 0 < round2 (colSum (applyRename df) "amount" (expense_df (applyRename df)))
             then flagsOf (catTotalsOf (applyRename df))
               (round2 (colSum (applyRename df) "amount" (expense_df (applyRename df))))
             else []) := by
        rw [heq]
      by_cases hpos : 0 < round2 (colSum (applyRename df) "amount" (expense_df (applyRename df)))
      · rw [hflags, if_pos hpos] at hf
        rcases (mem_flagsOf _ _ _).mp hf with ⟨p, hp, h30, hfp⟩
        refine ⟨round2 (colSum (applyRename df) "amount" (expense_df (applyRename df))),
          ?_, hpos, ?_, ?_, ?_⟩
        · rw [heq]
        · rw [heq, hfp]
          exact hp
        · rw [heq, hfp]
          show assocLookup (catTotalsOf (applyRename df)) p.1 = some p.2
          exact assocLookup_of_mem_nodup _ p (groupSum_keys_nodup _) hp
        · rw [hfp]
      · rw [hflags, if_neg hpos] at hf
        exact absurd hf (List.not_mem_nil f)
    · have hcat' : containsStr (applyRename df).cols "category" = false := by
        cases h : containsStr (applyRename df).cols "category"
        · rfl
        · exact absurd h hcat
      have hflags : (compute_analytics df).overspending_flags = [] := by
        rw [compute_financial df hfin]
        unfold financialStep
        rw [hfin, hcat']
        simp only [if_true, Bool.false_eq_true, if_false]
        rfl
      rw [hflags] at hf
      exact absurd hf (List.not_mem_nil f)
  · have hfin' : hasFinanceCols (applyRename df) = false := by
      cases h : hasFinanceCols (applyRename df)
      · rfl
      · exact absurd h hfin
    have hflags : (compute_analytics df).overspending_flags = [] := by
      rw [compute_nonfinancial df hfin', fallbackStep_flags]
      rfl
    rw [hflags] at hf
    exact absurd hf (List.not_mem_nil f)

/-- C10 witness: the single flag of the one-category table is consistent
with its mapping entry. -/
theorem c10_flag_consistency_witness :
    (⟨"Rent", 100, 100⟩ : FlagEntry) ∈ (compute_analytics rentDf).overspending_flags
    ∧ ∃ T, (compute_analytics rentDf).total_expenses = some T ∧ 0 < T
      ∧ ((⟨"Rent", 100, 100⟩ : FlagEntry).category,
          (⟨"Rent", 100, 100⟩ : FlagEntry).amount)
          ∈ (compute_analytics rentDf).expense_by_category
      ∧ assocLookup ((compute_analytics rentDf).expense_by_category)
          (⟨"Rent", 100, 100⟩ : FlagEntry).category
          = some (⟨"Rent", 100, 100⟩ : FlagEntry).amount
      ∧ (⟨"Rent", 100, 100⟩ : FlagEntry).percentage
          = round2 ((⟨"Rent", 100, 100⟩ : FlagEntry).amount / T * 100) :=
  ⟨by with_unfolding_all decide,
   c10_flag_consistency rentDf ⟨"Rent", 100, 100⟩ (by with_unfolding_all decide)⟩

/-- C9: the strict engine copy rejects (HTTP 400) every CSV whose
normalized header lacks any of `date`, `category`, `amount`, `type`: a
successful parse always carries all four columns, and an upload missing
one never reaches aggregation — the pipeline ends in an error, producing
no summary at all. -/
theorem c9_strict_required_columns (content : String) :
    (∀ df, Backend.parse_csv content = Except.ok df →
      ∀ c ∈ Backend.requiredCols, c ∈ df.cols)
    ∧ ((∃ c ∈ Backend.requiredCols, c ∉ Backend.headerCols content) →
      ∃ e, Backend.analyze content = Except.error e) := by
  constructor
  · intro df hdf c hc
    unfold Backend.parse_csv at hdf
    cases hsl : splitLines content with
    | nil =>
      rw [hsl] at hdf
      exact absurd hdf (by simp)
    | cons header rest =>
      rw [hsl] at hdf
      dsimp only at hdf
      split at hdf
      next hall =>
        have hcols : df.cols = (strSplit ',' header).map (fun c => strLower (strTrim c)) := by
          injection hdf with h2
          rw [← h2]
        rw [hcols]
        rw [← containsStr_iff]
        exact List.all_eq_true.mp hall c hc
      next =>
        exact absurd hdf (by simp)
  · rintro ⟨c, hc, hnc⟩
    unfold Backend.analyze Backend.parse_csv
    unfold Backend.headerCols at hnc
    cases hsl : splitLines content with
    | nil =>
      exact ⟨_, rfl⟩
    | cons header rest =>
      rw [hsl] at hnc
      dsimp only at hnc
      have hall : (Backend.requiredCols.all
          (fun x => containsStr ((strSplit ',' header).map (fun s => strLower (strTrim s))) x)) = false := by
        cases h : Backend.requiredCols.all
            (fun x => containsStr ((strSplit ',' header).map (fun s => strLower (strTrim s))) x)
        · rfl
        · exfalso
          have := List.all_eq_true.mp h c hc
          rw [containsStr_iff] at this
          exact hnc this
      dsimp only
      rw [hall]
      exact ⟨_, rfl⟩

/-- C9 witness: a CSV whose header has only `amount` and `type` succeeds in
nothing — the strict pipeline returns an error and no summary. -/
theorem c9_strict_required_columns_witness :
    ("date" ∈ Backend.requiredCols
      ∧ "date" ∉ Backend.headerCols "amount,type\n1,income")
    ∧ ∃ e, Backend.analyze "amount,type\n1,income" = Except.error e :=
  ⟨⟨by with_unfolding_all decide, by with_unfolding_all decide⟩,
   (c9_strict_required_columns "amount,type\n1,income").2
     ⟨"date", by with_unfolding_all decide, by with_unfolding_all decide⟩⟩
